import Mathlib

/-!
Verification of the Shifta shift-management optimization engine
(`schedule/scheduler/ai_engine.py`, models in `schedule/models.py`).

Shallow embedding conventions:
* calendar dates are integers (days since an arbitrary epoch); `+ 1` is
  `timedelta(days=1)`, and the `strftime` keys of the source are in
  bijection with dates, so variable keys use the date directly;
* the Django object store is an explicit `Store` record of lists;
  Python dictionaries built by insertion are modelled by last-wins folds;
* Python exceptions are `Except String`; a caught-and-swallowed exception
  becomes a normal return value, mirroring the source's `try/except`;
* the PuLP problem is an explicit record of variables, objective terms and
  constraints, each constraint with a decidable satisfaction semantics;
  the external CBC solver is an oracle: its status and the 0/1 values it
  reports are parameters of the functions that consume them.
-/

/-- `schedule.models.WorkStyle`: the per-worker work-style policy. -/
structure WorkStyle where
  max_shifts_per_month : Nat
  min_shifts_per_month : Nat
  allow_consecutive_days : Nat
  deriving DecidableEq, Repr

/-- `schedule.models.StaffProfile`: a worker; `job_type` and `work_style`
are nullable foreign keys. -/
structure StaffProfile where
  id : Nat
  job_type : Option Nat
  work_style : Option WorkStyle
  is_active : Bool
  deriving DecidableEq, Repr

/-- `schedule.models.SchedulePeriod`: the planning period. -/
structure SchedulePeriod where
  id : Nat
  start_date : Int
  end_date : Int
  deriving DecidableEq, Repr

/-- `schedule.models.ShiftRequest`: a worker preference,
priority 1 = off-requested, 2 = available, 3 = strongly-wants-to-work. -/
structure ShiftRequest where
  staff_id : Nat
  period_id : Nat
  date : Int
  priority : Nat
  deriving DecidableEq, Repr

/-- `schedule.models.DailyRequirement`: per (day, job type) staffing needs. -/
structure DailyRequirement where
  period_id : Nat
  date : Int
  job_type : Nat
  min_staff_count : Nat
  required_staff_count : Nat
  deriving DecidableEq, Repr

/-- `schedule.models.HolidayType`: an off-day category (e.g. 週休). -/
structure HolidayType where
  id : Nat
  name : String
  deriving DecidableEq, Repr

/-- `schedule.models.ShiftAssignment`: one persisted work/off decision. -/
structure ShiftAssignment where
  staff_id : Nat
  date : Int
  is_workday : Bool
  holiday_type : Option Nat
  created_by_ai : Bool
  manually_adjusted : Bool
  deriving DecidableEq, Repr

/-- `schedule.models.ScheduleLog`: one audit-log entry. -/
structure ScheduleLog where
  period_id : Nat
  action : String
  user_id : Option Nat
  description : String
  success : Bool
  deriving DecidableEq, Repr

/-- The Django object store visible to the engine. -/
structure Store where
  periods : List SchedulePeriod
  staff : List StaffProfile
  requests : List ShiftRequest
  requirements : List DailyRequirement
  holiday_types : List HolidayType
  assignments : List ShiftAssignment
  logs : List ScheduleLog
  deriving DecidableEq, Repr

/-- The loop body of `ShiftOptimizer._generate_date_range`, with the
number of remaining iterations made explicit so the recursion is
structural (the loop runs exactly `end - current + 1` times). -/
def generate_date_range_loop (fuel : Nat) (current endD : Int) : List Int :=
  match fuel with
  | 0 => []
  | fuel + 1 =>
      if current ≤ endD then
        current :: generate_date_range_loop fuel (current + 1) endD
      else []

/-- `ShiftOptimizer._generate_date_range`: the dates from `start_date` to
`end_date` inclusive, built by the source's `while current <= end` loop. -/
def generate_date_range (startD endD : Int) : List Int :=
  generate_date_range_loop (endD + 1 - startD).toNat startD endD

/-- Python `dict` built by insertion keyed on `(staff_id, date)` then read
with `.get`: the last inserted entry for the key wins
(`ShiftOptimizer._load_shift_requests` + lookups). -/
def find_request (reqs : List ShiftRequest) (sid : Nat) (d : Int) :
    Option ShiftRequest :=
  reqs.foldl
    (fun acc r => if r.staff_id = sid ∧ r.date = d then some r else acc) none

/-- Same dictionary semantics for `(date, job_type)` requirement lookups
(`ShiftOptimizer._load_daily_requirements`). -/
def find_requirement (reqts : List DailyRequirement) (d : Int) (jt : Nat) :
    Option DailyRequirement :=
  reqts.foldl
    (fun acc r => if r.date = d ∧ r.job_type = jt then some r else acc) none

/-- The state `ShiftOptimizer.__init__` loads for a period: active staff,
the day sequence, and the per-period preference and requirement maps. -/
structure Optimizer where
  period : SchedulePeriod
  staff_list : List StaffProfile
  date_range : List Int
  requests : List ShiftRequest
  requirements : List DailyRequirement
  deriving DecidableEq, Repr

/-- `ShiftOptimizer.__init__`: `SchedulePeriod.objects.get(id=period_id)`
raises `DoesNotExist` when the period is missing; otherwise the inputs are
loaded (active staff, date range, period-filtered requests/requirements). -/
def init_optimizer (store : Store) (period_id : Nat) :
    Except String Optimizer :=
  match store.periods.find? (fun p => p.id = period_id) with
  | none => .error "SchedulePeriod matching query does not exist."
  | some p =>
      .ok { period := p
            staff_list := store.staff.filter (fun s => s.is_active)
            date_range := generate_date_range p.start_date p.end_date
            requests := store.requests.filter (fun r => r.period_id = p.id)
            requirements :=
              store.requirements.filter (fun r => r.period_id = p.id) }

/-- The key of one binary decision variable
`is_working[(staff.id, date_str)]` from
`ShiftOptimizer._create_decision_variables`. -/
structure VarKey where
  staff_id : Nat
  date : Int
  deriving DecidableEq, Repr

/-- A solver solution: the reported 0/1 value of each variable, keyed the
same way the source keys `is_working`. -/
def Solution : Type := Nat → Int → Bool

/-- Number of variables of `vars` that a solution sets to 1. -/
def count_working (sol : Solution) (vars : List VarKey) : Nat :=
  (vars.filter (fun v => sol v.staff_id v.date)).length

/-- One PuLP constraint of the model, with the data the source puts in it. -/
inductive Constraint where
  /-- `daily_min_{date}_{job_type_id}`: sum of the job type's staff
  variables on the day ≥ the minimum count. -/
  | daily_min (date : Int) (job_type : Nat) (vars : List VarKey) (m : Nat)
  /-- `min_monthly_{staff_id}`: the worker's period total ≥ policy min. -/
  | min_monthly (staff_id : Nat) (vars : List VarKey) (m : Nat)
  /-- `max_monthly_{staff_id}`: the worker's period total ≤ policy max. -/
  | max_monthly (staff_id : Nat) (vars : List VarKey) (m : Nat)
  /-- `consecutive_{staff_id}_{i}`: sum over the window of `c + 1` days
  starting at index `i` ≤ `c`. -/
  | consecutive (staff_id : Nat) (window_start : Nat) (vars : List VarKey)
      (c : Nat)
  /-- `holiday_request_{staff_id}_{date_str}`: the hard equality `var == 0`
  for an off-requested (worker, day). -/
  | holiday_request (v : VarKey)
  deriving DecidableEq, Repr

/-- Satisfaction of one constraint by a 0/1 solution. -/
def Constraint.satisfied_by (c : Constraint) (sol : Solution) : Bool :=
  match c with
  | .daily_min _ _ vars m => decide (m ≤ count_working sol vars)
  | .min_monthly _ vars m => decide (m ≤ count_working sol vars)
  | .max_monthly _ vars m => decide (count_working sol vars ≤ m)
  | .consecutive _ _ vars c => decide (count_working sol vars ≤ c)
  | .holiday_request v => !(sol v.staff_id v.date)

/-- `ShiftOptimizer._create_decision_variables`: one binary variable per
(active worker, day of the period). -/
def create_decision_variables (staff_list : List StaffProfile)
    (date_range : List Int) : List VarKey :=
  staff_list.flatMap (fun s => date_range.map (fun d => ⟨s.id, d⟩))

/-- `ShiftOptimizer._set_objective_function`: the objective's terms, one
`coefficient * variable` pair appended per (worker, day) whose looked-up
priority (default 2) is 3, 2 or 1. -/
def set_objective_function (staff_list : List StaffProfile)
    (date_range : List Int) (reqs : List ShiftRequest) :
    List (Int × VarKey) :=
  staff_list.flatMap (fun s =>
    date_range.filterMap (fun d =>
      let priority := ((find_request reqs s.id d).map
        (fun r => r.priority)).getD 2
      if priority = 3 then some (10, ⟨s.id, d⟩)
      else if priority = 2 then some (1, ⟨s.id, d⟩)
      else if priority = 1 then some (-100, ⟨s.id, d⟩)
      else none))

/-- Value of a linear objective at a 0/1 solution. -/
def objective_value (terms : List (Int × VarKey)) (sol : Solution) : Int :=
  (terms.map (fun t =>
    if sol t.2.staff_id t.2.date then t.1 else 0)).sum

/-- `ShiftOptimizer._get_all_job_type_ids`: the set of job-type ids held by
(active) staff, `list(set(...))`. -/
def get_all_job_type_ids (staff_list : List StaffProfile) : List Nat :=
  (staff_list.filterMap (fun s => s.job_type)).dedup

/-- `ShiftOptimizer._add_daily_minimum_constraints`: for each day and each
job type present among staff, when a requirement is recorded and the job
type's staff-variable list is nonempty, add `sum ≥ min_count`. -/
def add_daily_minimum_constraints (staff_list : List StaffProfile)
    (date_range : List Int) (reqts : List DailyRequirement) :
    List Constraint :=
  date_range.flatMap (fun d =>
    (get_all_job_type_ids staff_list).filterMap (fun jt =>
      match find_requirement reqts d jt with
      | some req =>
          let staff_vars :=
            (staff_list.filter (fun s => s.job_type = some jt)).map
              (fun s => (⟨s.id, d⟩ : VarKey))
          if staff_vars.isEmpty then none
          else some (.daily_min d jt staff_vars req.min_staff_count)
      | none => none))

/-- `ShiftOptimizer._add_monthly_workday_constraints`: per worker with a
work style, a `≥ min` constraint when the policy min is positive and
always a `≤ max` constraint, over all the worker's variables. -/
def add_monthly_workday_constraints (staff_list : List StaffProfile)
    (date_range : List Int) : List Constraint :=
  staff_list.flatMap (fun s =>
    match s.work_style with
    | some ws =>
        let monthly_vars := date_range.map (fun d => (⟨s.id, d⟩ : VarKey))
        (if ws.min_shifts_per_month > 0 then
          [Constraint.min_monthly s.id monthly_vars ws.min_shifts_per_month]
        else []) ++
        [Constraint.max_monthly s.id monthly_vars ws.max_shifts_per_month]
    | none => [])

/-- `ShiftOptimizer._add_consecutive_workday_constraints`: per worker whose
policy has `allow_consecutive_days > 0`, one sliding-window constraint per
start index `i < len(date_range) - max_consecutive`, over the window of
`max_consecutive + 1` days. -/
def add_consecutive_workday_constraints (staff_list : List StaffProfile)
    (date_range : List Int) : List Constraint :=
  staff_list.flatMap (fun s =>
    match s.work_style with
    | some ws =>
        if ws.allow_consecutive_days > 0 then
          (List.range
            (date_range.length - ws.allow_consecutive_days)).map (fun i =>
            .consecutive s.id i
              ((List.range (ws.allow_consecutive_days + 1)).map
                (fun j => (⟨s.id, date_range.getD (i + j) 0⟩ : VarKey)))
              ws.allow_consecutive_days)
        else []
    | none => [])

/-- `ShiftOptimizer._add_holiday_request_constraints`: for each (active
worker, day) whose looked-up preference equals 1, the hard constraint
`var == 0`. -/
def add_holiday_request_constraints (staff_list : List StaffProfile)
    (date_range : List Int) (reqs : List ShiftRequest) : List Constraint :=
  staff_list.flatMap (fun s =>
    date_range.filterMap (fun d =>
      if (find_request reqs s.id d).map (fun r => r.priority) = some 1 then
        some (.holiday_request ⟨s.id, d⟩)
      else none))

/-- `ShiftOptimizer._add_constraints`, in source order A, B, C, D. -/
def add_constraints (staff_list : List StaffProfile) (date_range : List Int)
    (reqs : List ShiftRequest) (reqts : List DailyRequirement) :
    List Constraint :=
  add_daily_minimum_constraints staff_list date_range reqts ++
  add_monthly_workday_constraints staff_list date_range ++
  add_consecutive_workday_constraints staff_list date_range ++
  add_holiday_request_constraints staff_list date_range reqs

/-- The abstract PuLP problem. -/
structure LpModel where
  vars : List VarKey
  objective : List (Int × VarKey)
  constraints : List Constraint

/-- `ShiftOptimizer.create_optimization_problem`. -/
def create_optimization_problem (opt : Optimizer) : LpModel :=
  { vars := create_decision_variables opt.staff_list opt.date_range
    objective :=
      set_objective_function opt.staff_list opt.date_range opt.requests
    constraints :=
      add_constraints opt.staff_list opt.date_range opt.requests
        opt.requirements }

/-- PuLP solver statuses (`pulp.LpStatus` names, plus the `Feasible`
value the source tests for). -/
inductive SolverStatus where
  | optimal
  | feasible
  | infeasible
  | unbounded
  | notSolved
  | undefinedStatus
  deriving DecidableEq, Repr

/-- The `pulp.LpStatus[...]` display string of a status. -/
def SolverStatus.name : SolverStatus → String
  | .optimal => "Optimal"
  | .feasible => "Feasible"
  | .infeasible => "Infeasible"
  | .unbounded => "Unbounded"
  | .notSolved => "Not Solved"
  | .undefinedStatus => "Undefined"

/-- Outcome of `self.problem.solve(...)`: either a status, or an exception
raised by the solver call (caught inside `ShiftOptimizer.solve`). -/
inductive SolveOutcome where
  | status (s : SolverStatus)
  | raised (msg : String)
  deriving DecidableEq, Repr

/-- Whether the problem ended in a status `in ['Optimal', 'Feasible']`,
the check `ShiftOptimizer.save_results` performs. -/
def SolveOutcome.is_solved : SolveOutcome → Bool
  | .status s => s = .optimal ∨ s = .feasible
  | .raised _ => false

/-- `ShiftOptimizer.solve`: returns `(success, message)`; a non-solved
status yields `(False, "解が見つかりませんでした: <status>")`, and a solver
exception yields `(False, "計算エラー: <msg>")`. -/
def ShiftOptimizer.solve (oc : SolveOutcome) : Bool × String :=
  match oc with
  | .status s =>
      if s = .optimal then (true, "最適解が見つかりました")
      else if s = .feasible then (true, "実行可能解が見つかりました")
      else (false, "解が見つかりませんでした: " ++ s.name)
  | .raised msg => (false, "計算エラー: " ++ msg)

/-- Whether a date falls in the period's `date__range` filter. -/
def in_period_range (p : SchedulePeriod) (d : Int) : Bool :=
  p.start_date ≤ d ∧ d ≤ p.end_date

/-- `ShiftOptimizer.save_results`: raises unless the status is Optimal or
Feasible; otherwise, in one transaction, deletes every assignment in the
period's date range and bulk-inserts one record per (active worker, day):
Returns the number of workday records created and the updated store.
`assignment_record` is the record built for one (worker, day): a bare
workday record if the variable's reported value is 1, else an off-day
record carrying `HolidayType.objects.filter(name='週休').first()`. -/
def assignment_record (store : Store) (sol : Solution)
    (s : StaffProfile) (d : Int) : ShiftAssignment :=
  if sol s.id d then
    { staff_id := s.id, date := d, is_workday := true
      holiday_type := none, created_by_ai := true
      manually_adjusted := false }
  else
    { staff_id := s.id, date := d, is_workday := false
      holiday_type :=
        ((store.holiday_types.filter
          (fun h => h.name = "週休")).head?).map (fun h => h.id)
      created_by_ai := true, manually_adjusted := false }

/-- The `assignments_to_create` list of `ShiftOptimizer.save_results`:
one record per (active worker, period day). -/
def assignments_to_create (store : Store) (opt : Optimizer)
    (sol : Solution) : List ShiftAssignment :=
  opt.staff_list.flatMap (fun s =>
    opt.date_range.map (fun d => assignment_record store sol s d))

def save_results (store : Store) (opt : Optimizer) (oc : SolveOutcome)
    (sol : Solution) : Except String (Nat × Store) :=
  if oc.is_solved = false then
    .error "有効な解が存在しません"
  else
    let kept := store.assignments.filter
      (fun a => !(in_period_range opt.period a.date))
    let created := assignments_to_create store opt sol
    let assignment_count := (created.filter (fun a => a.is_workday)).length
    .ok (assignment_count, { store with assignments := kept ++ created })

/-- `ShiftSchedulerService._log_execution`: appends a `ScheduleLog` row
(its own exception guard only swallows storage failures, which the store
model does not produce). -/
def log_execution (store : Store) (period_id : Nat) (action : String)
    (user_id : Option Nat) (description : String) (success : Bool) :
    Store :=
  { store with logs := store.logs ++
      [{ period_id := period_id, action := action, user_id := user_id
         description := description, success := success }] }

/-- The dictionary `ShiftSchedulerService.generate_schedule` returns
(`execution_time` is wall-clock time, outside the embedding). -/
structure GenResult where
  success : Bool
  message : String
  assignments_count : Nat
  deriving DecidableEq, Repr

/-- Steps 1-5 of `ShiftSchedulerService.generate_schedule` as run inside
its `try`: initialization, model construction, solve (logging and
returning a failure dictionary on a non-success status), materialization,
success log. An `.error` is an exception escaping to the `except` clause. -/
def generate_schedule_core (store : Store) (period_id : Nat)
    (user_id : Option Nat) (oc : SolveOutcome) (sol : Solution) :
    Except String (GenResult × Store) := do
  let opt ← init_optimizer store period_id
  let _model := create_optimization_problem opt
  let solved := ShiftOptimizer.solve oc
  if solved.1 = false then
    let store1 := log_execution store period_id "ai_create" user_id
      solved.2 false
    return ({ success := false, message := solved.2
              assignments_count := 0 }, store1)
  else
    let saved ← save_results store opt oc sol
    let store1 := log_execution saved.2 period_id "ai_create" user_id
      (toString saved.1 ++ "件の割り当てを作成") true
    return ({ success := true
              message := "シフトの自動作成が完了しました。" ++
                toString saved.1 ++ "件の勤務を割り当てました。"
              assignments_count := saved.1 }, store1)

/-- `ShiftSchedulerService.generate_schedule`: the `try/except` boundary.
Any exception from steps 1-5 is caught, logged as a failure entry whose
description carries the message, and converted into a returned failure
dictionary; nothing is re-raised. -/
def generate_schedule (store : Store) (period_id : Nat)
    (user_id : Option Nat) (oc : SolveOutcome) (sol : Solution) :
    GenResult × Store :=
  match generate_schedule_core store period_id user_id oc sol with
  | .ok r => r
  | .error e =>
      ({ success := false
         message := "シフト作成中にエラーが発生しました: " ++ e
         assignments_count := 0 },
       log_execution store period_id "ai_create" user_id
         ("エラー: " ++ e) false)

/-- Round-half-even (Python 3 `round`) of a rational to an integer:
nearest integer, ties to the even neighbour. Written with `Int.fdiv` on
the reduced fraction so that it evaluates by kernel reduction. -/
def round_half_even (q : ℚ) : ℤ :=
  let fl : ℤ := q.num.fdiv (q.den : ℤ)
  let frac : ℚ := q - (fl : ℚ)
  if frac = 1 / 2 then
    if fl % 2 = 0 then fl else fl + 1
  else if frac < 1 / 2 then fl
  else fl + 1

/-- Python `round(x, 1)`: round-half-even to one decimal place. -/
def round_tenths (q : ℚ) : ℚ :=
  (round_half_even (q * 10) : ℚ) / 10

/-- The statistics dictionary of
`ShiftSchedulerService.get_optimization_statistics`. -/
structure Stats where
  total_assignments : Nat
  workday_assignments : Nat
  holiday_assignments : Nat
  total_requests : Nat
  fulfilled_requests : Nat
  fulfillment_rate : ℚ
  deriving DecidableEq, Repr

/-- `ShiftSchedulerService.get_optimization_statistics`: `none` models the
empty dictionary returned when an exception is caught (in the store model,
only the period lookup raises); otherwise counts assignments in the
period's range, and walks the period's requests accumulating the
fulfilled ones exactly as the source loop does. -/
def get_optimization_statistics (store : Store) (period_id : Nat) :
    Option Stats :=
  match store.periods.find? (fun p => p.id = period_id) with
  | none => none
  | some period =>
      let assignments := store.assignments.filter
        (fun a => in_period_range period a.date)
      let total_assignments := assignments.length
      let workday_assignments :=
        (assignments.filter (fun a => a.is_workday)).length
      let holiday_assignments := total_assignments - workday_assignments
      let period_requests :=
        store.requests.filter (fun r => r.period_id = period.id)
      let total_requests := period_requests.length
      let fulfilled_requests : Nat := period_requests.foldl
        (fun acc r =>
          match assignments.find?
              (fun a => a.staff_id = r.staff_id ∧ a.date = r.date) with
          | some a =>
              if r.priority = 1 ∧ a.is_workday = false then acc + 1
              else if (r.priority = 2 ∨ r.priority = 3) ∧
                  a.is_workday = true then acc + 1
              else acc
          | none => acc) 0
      let fulfillment_rate : ℚ :=
        if total_requests > 0 then
          (fulfilled_requests : ℚ) / (total_requests : ℚ) * 100
        else 0
      some { total_assignments := total_assignments
             workday_assignments := workday_assignments
             holiday_assignments := holiday_assignments
             total_requests := total_requests
             fulfilled_requests := fulfilled_requests
             fulfillment_rate := round_tenths fulfillment_rate }

/-! Concrete stores used to exercise the theorems on explicit inputs. -/

/-- A 2-worker, 3-day period (days 0-2); worker 1 requests day 1 off. -/
def c1_store : Store :=
  { periods := [{ id := 1, start_date := 0, end_date := 2 }]
    staff := [{ id := 1, job_type := none, work_style := none
                is_active := true },
              { id := 2, job_type := none, work_style := none
                is_active := true }]
    requests := [{ staff_id := 1, period_id := 1, date := 1, priority := 1 }]
    requirements := []
    holiday_types := [{ id := 9, name := "週休" }]
    assignments := []
    logs := [] }

/-- The optimizer state `ShiftOptimizer.__init__` builds from `c1_store`. -/
def c1_opt : Optimizer :=
  { period := { id := 1, start_date := 0, end_date := 2 }
    staff_list := [{ id := 1, job_type := none, work_style := none
                     is_active := true },
                   { id := 2, job_type := none, work_style := none
                     is_active := true }]
    date_range := [0, 1, 2]
    requests := [{ staff_id := 1, period_id := 1, date := 1, priority := 1 }]
    requirements := [] }

/-- Worker 1 of `c1_store`. -/
def c1_staff : StaffProfile :=
  { id := 1, job_type := none, work_style := none, is_active := true }

/-- A solution for `c1_store`: worker 2 works every day, worker 1 never. -/
def c1_sol : Solution := fun s _ => decide (s = 2)

/-- The `(count, store)` result of materializing `c1_sol`. -/
def c1_saved : Nat × Store :=
  match save_results c1_store c1_opt (.status .optimal) c1_sol with
  | .ok r => r
  | .error _ => (0, c1_store)

/-- A store with no periods: step 1 of the service raises `DoesNotExist`. -/
def c9_store : Store :=
  { periods := [], staff := [], requests := [], requirements := []
    holiday_types := [], assignments := [], logs := [] }

/-- A 1-worker, 1-day store whose holiday-type table has no 週休 row. -/
def c7_store : Store :=
  { periods := [{ id := 1, start_date := 0, end_date := 0 }]
    staff := [{ id := 1, job_type := none, work_style := none
                is_active := true }]
    requests := []
    requirements := []
    holiday_types := []
    assignments := []
    logs := [] }

/-- The optimizer state built from `c7_store`. -/
def c7_opt : Optimizer :=
  { period := { id := 1, start_date := 0, end_date := 0 }
    staff_list := [{ id := 1, job_type := none, work_style := none
                     is_active := true }]
    date_range := [0]
    requests := []
    requirements := [] }

/-- `c7_store` after materializing the all-off solution: the single
off-day record carries no holiday type at all. -/
def c7_result : Store :=
  { periods := [{ id := 1, start_date := 0, end_date := 0 }]
    staff := [{ id := 1, job_type := none, work_style := none
                is_active := true }]
    requests := []
    requirements := []
    holiday_types := []
    assignments := [{ staff_id := 1, date := 0, is_workday := false
                      holiday_type := none, created_by_ai := true
                      manually_adjusted := false }]
    logs := [] }


/-- Stated from the specification's words (objective): off-requested
gets −100, strongly-wants-to-work +10, anything else (available,
including the default when no preference was submitted) +1. -/
def objective_weight_spec (priority : Nat) : Int :=
  if priority = 1 then -100
  else if priority = 3 then 10
  else 1

/-- Stated from the specification's words: the objective is the sum over
every (worker, day) of the preference-derived weight times the variable,
the priority defaulting to 2 (available) when no preference exists. -/
def objective_spec (staff_list : List StaffProfile) (date_range : List Int)
    (reqs : List ShiftRequest) (sol : Solution) : Int :=
  (staff_list.map (fun s =>
    (date_range.map (fun d =>
      objective_weight_spec
        (((find_request reqs s.id d).map (fun r => r.priority)).getD 2) *
      (if sol s.id d then 1 else 0))).sum)).sum


/-- Recognizes the sliding-window constraint tagged
`consecutive_{sid0}_{i0}`. -/
def is_consecutive_for (sid0 : Nat) (i0 : Nat) : Constraint → Bool
  | .consecutive sid wstart _ _ => decide (sid = sid0 ∧ wstart = i0)
  | _ => false

/-- A worker whose policy allows at most 2 consecutive workdays. -/
def c5_staff : StaffProfile :=
  { id := 1, job_type := none
    work_style := some { max_shifts_per_month := 22
                         min_shifts_per_month := 0
                         allow_consecutive_days := 2 }
    is_active := true }

/-- A 4-day optimizer state for `c5_staff`. -/
def c5_opt : Optimizer :=
  { period := { id := 1, start_date := 0, end_date := 3 }
    staff_list := [c5_staff]
    date_range := [0, 1, 2, 3]
    requests := []
    requirements := [] }

/-- Stated from the specification's words: the number of persisted
workday assignments on day `d` belonging to a listed worker of job type
`jt`. -/
def job_type_workday_count (asgs : List ShiftAssignment)
    (staff_list : List StaffProfile) (jt : Nat) (d : Int) : Nat :=
  (asgs.filter (fun a => a.is_workday && a.date = d &&
    staff_list.any
      (fun s1 => s1.id = a.staff_id && s1.job_type = some jt))).length

/-- A store whose day-0 requirement (job type 5, minimum 2) concerns a
job type held by no active worker (the only worker has job type 7). -/
def c2_store : Store :=
  { periods := [{ id := 1, start_date := 0, end_date := 0 }]
    staff := [{ id := 1, job_type := some 7, work_style := none
                is_active := true }]
    requests := []
    requirements := [{ period_id := 1, date := 0, job_type := 5
                       min_staff_count := 2, required_staff_count := 2 }]
    holiday_types := [{ id := 9, name := "週休" }]
    assignments := []
    logs := [] }

/-- The optimizer state built from `c2_store`. -/
def c2_opt : Optimizer :=
  { period := { id := 1, start_date := 0, end_date := 0 }
    staff_list := [{ id := 1, job_type := some 7, work_style := none
                     is_active := true }]
    date_range := [0]
    requests := []
    requirements := [{ period_id := 1, date := 0, job_type := 5
                       min_staff_count := 2, required_staff_count := 2 }] }

/-- Like `c2_store` but the worker's job type (5) matches the day-0
requirement, whose minimum is 1. -/
def c2b_store : Store :=
  { periods := [{ id := 1, start_date := 0, end_date := 0 }]
    staff := [{ id := 1, job_type := some 5, work_style := none
                is_active := true }]
    requests := []
    requirements := [{ period_id := 1, date := 0, job_type := 5
                       min_staff_count := 1, required_staff_count := 1 }]
    holiday_types := [{ id := 9, name := "週休" }]
    assignments := []
    logs := [] }

/-- The optimizer state built from `c2b_store`. -/
def c2b_opt : Optimizer :=
  { period := { id := 1, start_date := 0, end_date := 0 }
    staff_list := [{ id := 1, job_type := some 5, work_style := none
                     is_active := true }]
    date_range := [0]
    requests := []
    requirements := [{ period_id := 1, date := 0, job_type := 5
                       min_staff_count := 1, required_staff_count := 1 }] }

/-- The `(count, store)` result of materializing the all-workdays
solution at `c2b_store`. -/
def c2b_saved : Nat × Store :=
  match save_results c2b_store c2b_opt (.status .optimal)
    (fun _ _ => true) with
  | .ok r => r
  | .error _ => (0, c2b_store)


/-- Stated from the specification's words: a preference counts as
fulfilled when priority 1 is matched by a non-workday assignment for the
same (worker, day), or priority 2 or 3 by a workday assignment. -/
def fulfilled_spec (assignments : List ShiftAssignment)
    (r : ShiftRequest) : Bool :=
  match assignments.find?
      (fun a => a.staff_id = r.staff_id ∧ a.date = r.date) with
  | some a =>
      (r.priority = 1 && a.is_workday = false) ||
      ((r.priority = 2 || r.priority = 3) && a.is_workday = true)
  | none => false

/-- The fulfillment-rate scenario: 10 submitted preferences (all
priority 2) and an assignment set matching 7 of them. -/
def c6_store : Store :=
  { periods := [{ id := 1, start_date := 0, end_date := 9 }]
    staff := [{ id := 1, job_type := none, work_style := none
                is_active := true }]
    requests :=
      [{ staff_id := 1, period_id := 1, date := 0, priority := 2 },
       { staff_id := 1, period_id := 1, date := 1, priority := 2 },
       { staff_id := 1, period_id := 1, date := 2, priority := 2 },
       { staff_id := 1, period_id := 1, date := 3, priority := 2 },
       { staff_id := 1, period_id := 1, date := 4, priority := 2 },
       { staff_id := 1, period_id := 1, date := 5, priority := 2 },
       { staff_id := 1, period_id := 1, date := 6, priority := 2 },
       { staff_id := 1, period_id := 1, date := 7, priority := 2 },
       { staff_id := 1, period_id := 1, date := 8, priority := 2 },
       { staff_id := 1, period_id := 1, date := 9, priority := 2 }]
    requirements := []
    holiday_types := [{ id := 9, name := "週休" }]
    assignments :=
      [{ staff_id := 1, date := 0, is_workday := true, holiday_type := none
         created_by_ai := true, manually_adjusted := false },
       { staff_id := 1, date := 1, is_workday := true, holiday_type := none
         created_by_ai := true, manually_adjusted := false },
       { staff_id := 1, date := 2, is_workday := true, holiday_type := none
         created_by_ai := true, manually_adjusted := false },
       { staff_id := 1, date := 3, is_workday := true, holiday_type := none
         created_by_ai := true, manually_adjusted := false },
       { staff_id := 1, date := 4, is_workday := true, holiday_type := none
         created_by_ai := true, manually_adjusted := false },
       { staff_id := 1, date := 5, is_workday := true, holiday_type := none
         created_by_ai := true, manually_adjusted := false },
       { staff_id := 1, date := 6, is_workday := true, holiday_type := none
         created_by_ai := true, manually_adjusted := false },
       { staff_id := 1, date := 7, is_workday := false
         holiday_type := some 9, created_by_ai := true
         manually_adjusted := false },
       { staff_id := 1, date := 8, is_workday := false
         holiday_type := some 9, created_by_ai := true
         manually_adjusted := false },
       { staff_id := 1, date := 9, is_workday := false
         holiday_type := some 9, created_by_ai := true
         manually_adjusted := false }]
    logs := [] }

/-- The fuel bound is exact, so the loop unfolds to the source's
`while current <= end` recurrence. -/
theorem generate_date_range_eq (a b : Int) :
    generate_date_range a b =
      if a ≤ b then a :: generate_date_range (a + 1) b else [] := by
  unfold generate_date_range
  by_cases hab : a ≤ b
  · have h1 : (b + 1 - a).toNat = (b + 1 - (a + 1)).toNat + 1 := by omega
    rw [h1]
    simp [generate_date_range_loop, hab]
  · have h1 : (b + 1 - a).toNat = 0 := by omega
    rw [h1]
    simp [generate_date_range_loop, hab]

theorem mem_generate_date_range {b d : Int} :
    ∀ a : Int, d ∈ generate_date_range a b ↔ (a ≤ d ∧ d ≤ b) := by
  suffices h : ∀ (n : Nat) (a : Int), (b + 1 - a).toNat = n →
      (d ∈ generate_date_range a b ↔ (a ≤ d ∧ d ≤ b)) by
    intro a
    exact h _ a rfl
  intro n
  induction n with
  | zero =>
    intro a h0
    rw [generate_date_range_eq]
    have hab : ¬ a ≤ b := by omega
    simp [hab]
    omega
  | succ n ih =>
    intro a h0
    rw [generate_date_range_eq]
    by_cases hab : a ≤ b
    · simp only [hab, if_pos, List.mem_cons]
      rw [ih (a + 1) (by omega)]
      constructor
      · rintro (rfl | ⟨h1, h2⟩) <;> omega
      · rintro ⟨h1, h2⟩
        by_cases hda : d = a
        · exact Or.inl hda
        · exact Or.inr ⟨by omega, h2⟩
    · simp [hab]
      omega

theorem length_generate_date_range {b : Int} :
    ∀ a : Int, (generate_date_range a b).length = (b + 1 - a).toNat := by
  suffices h : ∀ (n : Nat) (a : Int), (b + 1 - a).toNat = n →
      (generate_date_range a b).length = (b + 1 - a).toNat by
    intro a
    exact h _ a rfl
  intro n
  induction n with
  | zero =>
    intro a h0
    rw [generate_date_range_eq]
    have hab : ¬ a ≤ b := by omega
    simp [hab]
    omega
  | succ n ih =>
    intro a h0
    rw [generate_date_range_eq]
    have hab : a ≤ b := by omega
    simp only [hab, if_pos, List.length_cons]
    rw [ih (a + 1) (by omega)]
    omega

theorem nodup_generate_date_range {b : Int} :
    ∀ a : Int, (generate_date_range a b).Nodup := by
  suffices h : ∀ (n : Nat) (a : Int), (b + 1 - a).toNat = n →
      (generate_date_range a b).Nodup by
    intro a
    exact h _ a rfl
  intro n
  induction n with
  | zero =>
    intro a h0
    rw [generate_date_range_eq]
    have hab : ¬ a ≤ b := by omega
    simp [hab]
  | succ n ih =>
    intro a h0
    rw [generate_date_range_eq]
    by_cases hab : a ≤ b
    · simp only [hab, if_pos, List.nodup_cons]
      refine ⟨fun hmem => ?_, ih (a + 1) (by omega)⟩
      rw [mem_generate_date_range] at hmem
      omega
    · simp [hab]

theorem init_optimizer_ok {store : Store} {pid : Nat} {opt : Optimizer}
    (h : init_optimizer store pid = .ok opt) :
    opt.staff_list = store.staff.filter (fun s => s.is_active) ∧
    opt.date_range =
      generate_date_range opt.period.start_date opt.period.end_date ∧
    opt.requests =
      store.requests.filter (fun r => r.period_id = opt.period.id) ∧
    opt.requirements =
      store.requirements.filter (fun r => r.period_id = opt.period.id) := by
  unfold init_optimizer at h
  split at h
  · exact absurd h (by simp)
  · rw [Except.ok.injEq] at h
    subst h
    exact ⟨rfl, rfl, rfl, rfl⟩

theorem mem_date_range_in_period {store : Store} {pid : Nat}
    {opt : Optimizer} {d : Int} (hinit : init_optimizer store pid = .ok opt)
    (hd : d ∈ opt.date_range) : in_period_range opt.period d = true := by
  rw [(init_optimizer_ok hinit).2.1, mem_generate_date_range] at hd
  simp [in_period_range]
  omega

theorem save_results_ok {store : Store} {opt : Optimizer}
    {oc : SolveOutcome} {sol : Solution} {cnt : Nat} {store1 : Store}
    (h : save_results store opt oc sol = .ok (cnt, store1)) :
    store1.assignments =
      store.assignments.filter
        (fun a => !(in_period_range opt.period a.date)) ++
      assignments_to_create store opt sol ∧
    cnt = ((assignments_to_create store opt sol).filter
      (fun a => a.is_workday)).length := by
  unfold save_results at h
  split at h
  · exact absurd h (by simp)
  · rw [Except.ok.injEq, Prod.mk.injEq] at h
    exact ⟨by rw [← h.2], h.1.symm⟩

theorem assignment_record_staff_id (store : Store) (sol : Solution)
    (s : StaffProfile) (d : Int) :
    (assignment_record store sol s d).staff_id = s.id := by
  unfold assignment_record
  split <;> rfl

theorem assignment_record_date (store : Store) (sol : Solution)
    (s : StaffProfile) (d : Int) :
    (assignment_record store sol s d).date = d := by
  unfold assignment_record
  split <;> rfl

theorem assignment_record_is_workday (store : Store) (sol : Solution)
    (s : StaffProfile) (d : Int) :
    (assignment_record store sol s d).is_workday = sol s.id d := by
  unfold assignment_record
  split <;> simp_all

theorem assignment_record_holiday_type (store : Store) (sol : Solution)
    (s : StaffProfile) (d : Int) :
    (assignment_record store sol s d).holiday_type =
      if sol s.id d then none
      else ((store.holiday_types.filter
        (fun h => h.name = "週休")).head?).map (fun h => h.id) := by
  unfold assignment_record
  split <;> simp_all

theorem mem_assignments_to_create {store : Store} {opt : Optimizer}
    {sol : Solution} {a : ShiftAssignment}
    (ha : a ∈ assignments_to_create store opt sol) :
    ∃ s1 ∈ opt.staff_list, ∃ d1 ∈ opt.date_range,
      a = assignment_record store sol s1 d1 := by
  unfold assignments_to_create at ha
  rw [List.mem_flatMap] at ha
  obtain ⟨s1, hs1, ha⟩ := ha
  rw [List.mem_map] at ha
  obtain ⟨d1, hd1, ha⟩ := ha
  exact ⟨s1, hs1, d1, hd1, ha.symm⟩

/-- Claim C1: for every (active worker, period day) pair whose submitted
preference has priority 1 (off-requested), the model contains the hard
equality constraint fixing that pair's variable to 0, and after a
materialization from any solution satisfying the model's constraints,
every persisted assignment for that pair has `is_workday = false`. -/
theorem off_request_forces_day_off
    {store : Store} {pid : Nat} {opt : Optimizer}
    (hinit : init_optimizer store pid = .ok opt)
    {s : StaffProfile} (hs : s ∈ opt.staff_list)
    {d : Int} (hd : d ∈ opt.date_range)
    (hpri : (find_request opt.requests s.id d).map
      (fun r => r.priority) = some 1)
    {sol : Solution}
    (hsol : ∀ c ∈ (create_optimization_problem opt).constraints,
      c.satisfied_by sol = true)
    {oc : SolveOutcome} {cnt : Nat} {store1 : Store}
    (hsave : save_results store opt oc sol = .ok (cnt, store1)) :
    Constraint.holiday_request ⟨s.id, d⟩ ∈
      (create_optimization_problem opt).constraints ∧
    ∀ a ∈ store1.assignments,
      a.staff_id = s.id → a.date = d → a.is_workday = false := by
  have hmemD : Constraint.holiday_request ⟨s.id, d⟩ ∈
      add_holiday_request_constraints opt.staff_list opt.date_range
        opt.requests := by
    unfold add_holiday_request_constraints
    rw [List.mem_flatMap]
    refine ⟨s, hs, ?_⟩
    rw [List.mem_filterMap]
    exact ⟨d, hd, by rw [hpri]; simp⟩
  have hmem : Constraint.holiday_request ⟨s.id, d⟩ ∈
      (create_optimization_problem opt).constraints := by
    show _ ∈ add_constraints _ _ _ _
    unfold add_constraints
    exact List.mem_append_right _ hmemD
  have hvar : sol s.id d = false := by
    have := hsol _ hmem
    simpa [Constraint.satisfied_by] using this
  refine ⟨hmem, ?_⟩
  intro a ha hsid hdate
  rw [(save_results_ok hsave).1, List.mem_append] at ha
  rcases ha with hkept | hnew
  · rw [List.mem_filter] at hkept
    have hin := mem_date_range_in_period hinit hd
    rw [← hdate] at hin
    rw [hin] at hkept
    exact absurd hkept.2 (by simp)
  · obtain ⟨s1, _, d1, _, rfl⟩ := mem_assignments_to_create hnew
    rw [assignment_record_staff_id] at hsid
    rw [assignment_record_date] at hdate
    rw [assignment_record_is_workday, hsid, hdate, hvar]

/-- Witness for claim C1 at the concrete `c1_store`: worker 1's day-1
off request yields the `var == 0` constraint and a day-off record. -/
theorem off_request_forces_day_off_witness :
    Constraint.holiday_request ⟨1, 1⟩ ∈
      (create_optimization_problem c1_opt).constraints ∧
    ∀ a ∈ c1_saved.2.assignments,
      a.staff_id = 1 → a.date = 1 → a.is_workday = false :=
  @off_request_forces_day_off c1_store 1 c1_opt (by rfl)
    c1_staff (by decide) 1 (by decide) (by decide)
    c1_sol (by decide) (.status .optimal) c1_saved.1 c1_saved.2 (by rfl)

/-- Claim C8: when the solver reports a status other than Optimal or
Feasible, the service returns `success = false` with 0 assignments, writes
no assignment records, and appends exactly one failure log entry whose
description carries the solver status. -/
theorem solver_failure_aborts
    {store : Store} {pid : Nat} {opt : Optimizer}
    (hinit : init_optimizer store pid = .ok opt)
    (uid : Option Nat) {st : SolverStatus}
    (h1 : st ≠ .optimal) (h2 : st ≠ .feasible) (sol : Solution) :
    (generate_schedule store pid uid (.status st) sol).1 =
      { success := false
        message := "解が見つかりませんでした: " ++ st.name
        assignments_count := 0 } ∧
    (generate_schedule store pid uid (.status st) sol).2.assignments =
      store.assignments ∧
    (generate_schedule store pid uid (.status st) sol).2.logs =
      store.logs ++
        [{ period_id := pid, action := "ai_create", user_id := uid
           description := "解が見つかりませんでした: " ++ st.name
           success := false }] := by
  have hcore : generate_schedule_core store pid uid (.status st) sol =
      .ok ({ success := false
             message := "解が見つかりませんでした: " ++ st.name
             assignments_count := 0 },
        log_execution store pid "ai_create" uid
          ("解が見つかりませんでした: " ++ st.name) false) := by
    unfold generate_schedule_core
    rw [hinit]
    simp [ShiftOptimizer.solve, h1, h2]
  unfold generate_schedule
  rw [hcore]
  exact ⟨rfl, rfl, rfl⟩

/-- Witness for claim C8 at `c1_store` with an Infeasible solver status. -/
theorem solver_failure_aborts_witness :
    (generate_schedule c1_store 1 none (.status .infeasible) c1_sol).1 =
      { success := false
        message := "解が見つかりませんでした: " ++ SolverStatus.infeasible.name
        assignments_count := 0 } ∧
    (generate_schedule c1_store 1 none
      (.status .infeasible) c1_sol).2.assignments = c1_store.assignments ∧
    (generate_schedule c1_store 1 none
      (.status .infeasible) c1_sol).2.logs =
      c1_store.logs ++
        [{ period_id := 1, action := "ai_create", user_id := none
           description := "解が見つかりませんでした: " ++
             SolverStatus.infeasible.name
           success := false }] :=
  @solver_failure_aborts c1_store 1 c1_opt (by rfl) none .infeasible
    (by decide) (by decide) c1_sol

/-- Counterexample to claim C9 as stated: at `c9_store` the period lookup
of step 1 raises, yet `generate_schedule` returns a normal failure
dictionary instead of re-raising the exception to its caller. -/
theorem service_exception_swallowed :
    generate_schedule_core c9_store 1 none (.status .optimal) c1_sol =
      .error "SchedulePeriod matching query does not exist." ∧
    generate_schedule c9_store 1 none (.status .optimal) c1_sol =
      ({ success := false
         message := "シフト作成中にエラーが発生しました: " ++
           "SchedulePeriod matching query does not exist."
         assignments_count := 0 },
       log_execution c9_store 1 "ai_create" none
         ("エラー: " ++ "SchedulePeriod matching query does not exist.")
         false) :=
  ⟨rfl, rfl⟩

/-- Claim C9 (amended): any exception escaping steps 1-5 is caught at the
service boundary, converted into a failure run-log entry carrying the
exception's message, and converted into a returned failure result; it is
not re-raised. -/
theorem service_exception_logged_and_returned
    {store : Store} {pid : Nat} {uid : Option Nat} {oc : SolveOutcome}
    {sol : Solution} {e : String}
    (h : generate_schedule_core store pid uid oc sol = .error e) :
    generate_schedule store pid uid oc sol =
      ({ success := false
         message := "シフト作成中にエラーが発生しました: " ++ e
         assignments_count := 0 },
       log_execution store pid "ai_create" uid ("エラー: " ++ e) false) := by
  unfold generate_schedule
  rw [h]

/-- Witness for amended claim C9 at `c9_store`. -/
theorem service_exception_logged_and_returned_witness :
    generate_schedule c9_store 1 none (.status .optimal) c1_sol =
      ({ success := false
         message := "シフト作成中にエラーが発生しました: " ++
           "SchedulePeriod matching query does not exist."
         assignments_count := 0 },
       log_execution c9_store 1 "ai_create" none
         ("エラー: " ++ "SchedulePeriod matching query does not exist.")
         false) :=
  @service_exception_logged_and_returned c9_store 1 none
    (.status .optimal) c1_sol
    "SchedulePeriod matching query does not exist." (by rfl)

theorem round_tenths_zero : round_tenths 0 = 0 := by
  unfold round_tenths round_half_even
  norm_num

/-- Counterexample to claim C7 as stated: when no holiday type named 週休
exists, the materializer persists an off-day record whose off-type is
absent, violating the off-type invariant (the bulk insert bypasses
`ShiftAssignment.clean`). -/
theorem off_record_without_off_type :
    save_results c7_store c7_opt (.status .optimal) (fun _ _ => false) =
      .ok (0, c7_result) ∧
    ({ staff_id := 1, date := 0, is_workday := false, holiday_type := none
       created_by_ai := true, manually_adjusted := false } :
      ShiftAssignment) ∈ c7_result.assignments :=
  ⟨rfl, by decide⟩

/-- Claim C7 (amended): provided a holiday type named 週休 exists in the
store, every record the materializer persists in the period's range
satisfies the off-type invariant: off-day records carry that default
type and workday records carry none. -/
theorem materializer_off_type_invariant
    {store : Store} {opt : Optimizer}
    {ht : HolidayType}
    (hht : (store.holiday_types.filter
      (fun h => h.name = "週休")).head? = some ht)
    {oc : SolveOutcome} {sol : Solution} {cnt : Nat} {store1 : Store}
    (hsave : save_results store opt oc sol = .ok (cnt, store1)) :
    ∀ a ∈ store1.assignments, in_period_range opt.period a.date = true →
      (a.is_workday = false → a.holiday_type = some ht.id) ∧
      (a.is_workday = true → a.holiday_type = none) := by
  intro a ha hin
  rw [(save_results_ok hsave).1, List.mem_append] at ha
  rcases ha with hkept | hnew
  · rw [List.mem_filter] at hkept
    rw [hin] at hkept
    exact absurd hkept.2 (by simp)
  · obtain ⟨s1, _, d1, _, rfl⟩ := mem_assignments_to_create hnew
    rw [assignment_record_is_workday, assignment_record_holiday_type]
    by_cases hw : sol s1.id d1
    · rw [hw, if_pos rfl]
      exact ⟨fun h => by simp at h, fun _ => rfl⟩
    · rw [Bool.not_eq_true] at hw
      rw [hw]
      simp only [Bool.false_eq_true, if_false]
      refine ⟨fun _ => ?_, fun h => by simp at h⟩
      rw [hht]
      rfl

/-- Witness for amended claim C7 at `c1_store`, whose 週休 row has id 9:
worker 1's persisted day-0 off record carries that default off-type. -/
theorem materializer_off_type_invariant_witness :
    (ShiftAssignment.mk 1 0 false (some 9) true false).holiday_type =
      some (HolidayType.mk 9 "週休").id :=
  (@materializer_off_type_invariant c1_store c1_opt
    ⟨9, "週休"⟩ (by rfl) (.status .optimal) c1_sol
    c1_saved.1 c1_saved.2 (by rfl)
    (ShiftAssignment.mk 1 0 false (some 9) true false)
    (by decide) (by decide)).1 (by decide)

/-- Claim C10: the statistics entry point never raises: a missing period
becomes the empty dictionary, and a period with no submitted preferences
gets fulfillment rate 0 (the division is guarded). -/
theorem statistics_guarded (store : Store) (pid : Nat) :
    (store.periods.find? (fun p => p.id = pid) = none →
      get_optimization_statistics store pid = none) ∧
    (∀ p, store.periods.find? (fun q => q.id = pid) = some p →
      store.requests.filter (fun r => r.period_id = p.id) = [] →
      ∃ st, get_optimization_statistics store pid = some st ∧
        st.total_requests = 0 ∧ st.fulfillment_rate = 0) := by
  constructor
  · intro hnone
    unfold get_optimization_statistics
    rw [hnone]
  · intro p hp hreqs
    unfold get_optimization_statistics
    rw [hp]
    simp only [hreqs]
    exact ⟨_, rfl, rfl, round_tenths_zero⟩

/-- Witness for claim C10: the empty store's missing period yields the
empty dictionary, and `c7_store` (a period with no submitted preferences)
yields rate 0. -/
theorem statistics_guarded_witness :
    get_optimization_statistics c9_store 1 = none ∧
    ∃ st, get_optimization_statistics c7_store 1 = some st ∧
      st.total_requests = 0 ∧ st.fulfillment_rate = 0 :=
  ⟨(statistics_guarded c9_store 1).1 (by rfl),
   (statistics_guarded c7_store 1).2 ⟨1, 0, 0⟩ (by rfl) (by rfl)⟩

theorem countP_flatMap {α β : Type} (f : α → List β) (p : β → Bool) :
    ∀ l : List α, (l.flatMap f).countP p =
      (l.map (fun a => (f a).countP p)).sum := by
  intro l
  induction l with
  | nil => rfl
  | cons a l ih => simp [List.countP_append, ih]

theorem sum_map_const_nat {α : Type} (l : List α) (n : Nat) :
    (l.map (fun _ => n)).sum = l.length * n := by
  induction l with
  | nil => simp
  | cons a l ih =>
    simp [ih, Nat.succ_mul]
    omega

theorem sum_map_ite_one {α : Type} (l : List α) (p : α → Prop)
    [DecidablePred p] :
    (l.map (fun a => if p a then 1 else 0)).sum =
      l.countP (fun a => decide (p a)) := by
  induction l with
  | nil => rfl
  | cons a l ih =>
    by_cases h : p a
    · simp [List.countP_cons, h, ih]
      omega
    · simp [List.countP_cons, h, ih]

theorem countP_eq_one_key {α : Type} [DecidableEq α] {l : List α}
    (hnd : l.Nodup) {d : α} (hd : d ∈ l) :
    l.countP (fun x => decide (x = d)) = 1 := by
  have h1 : l.countP (fun x => decide (x = d)) = l.count d := by
    apply List.countP_congr
    intro x _
    simp [List.count]
  rw [h1]
  exact List.count_eq_one_of_mem hnd hd

/-- After a successful materialization, the period-range slice of the
persisted assignments is exactly the freshly created list (the delete
step removed everything else in range). -/
theorem filtered_assignments_eq_created
    {store : Store} {pid : Nat} {opt : Optimizer}
    (hinit : init_optimizer store pid = .ok opt)
    {oc : SolveOutcome} {sol : Solution} {cnt : Nat} {store1 : Store}
    (hsave : save_results store opt oc sol = .ok (cnt, store1)) :
    store1.assignments.filter
      (fun a => in_period_range opt.period a.date) =
      assignments_to_create store opt sol := by
  rw [(save_results_ok hsave).1, List.filter_append]
  have h1 : (store.assignments.filter
      (fun a => !(in_period_range opt.period a.date))).filter
        (fun a => in_period_range opt.period a.date) = [] := by
    rw [List.filter_filter]
    have hp : ∀ a : ShiftAssignment,
        (in_period_range opt.period a.date &&
          !(in_period_range opt.period a.date)) = false := by
      intro a
      cases in_period_range opt.period a.date <;> rfl
    simp only [hp]
    exact List.filter_false _
  rw [h1, List.nil_append]
  apply List.filter_eq_self.mpr
  intro a ha
  obtain ⟨s1, _, d1, hd1, rfl⟩ := mem_assignments_to_create ha
  rw [assignment_record_date]
  exact mem_date_range_in_period hinit hd1

/-- Claim C3: after a successful run the persisted assignments in the
period hold exactly one record per (active worker, day), so their number
is the active-worker count times the day count of the period. -/
theorem assignments_count_after_run
    {store : Store} {pid : Nat} {opt : Optimizer}
    (hinit : init_optimizer store pid = .ok opt)
    {oc : SolveOutcome} {sol : Solution} {cnt : Nat} {store1 : Store}
    (hsave : save_results store opt oc sol = .ok (cnt, store1))
    (hse : opt.period.start_date ≤ opt.period.end_date)
    (hids : (opt.staff_list.map (fun s => s.id)).Nodup) :
    (store1.assignments.filter
      (fun a => in_period_range opt.period a.date)).length =
      opt.staff_list.length *
        (opt.period.end_date - opt.period.start_date + 1).toNat ∧
    ∀ s ∈ opt.staff_list, ∀ d ∈ opt.date_range,
      ((store1.assignments.filter
        (fun a => in_period_range opt.period a.date)).filter
          (fun a => a.staff_id = s.id ∧ a.date = d)).length = 1 := by
  rw [filtered_assignments_eq_created hinit hsave]
  constructor
  · unfold assignments_to_create
    rw [List.length_flatMap]
    simp only [Function.comp_def, List.length_map]
    rw [sum_map_const_nat, (init_optimizer_ok hinit).2.1,
      length_generate_date_range]
    congr 1
    omega
  · intro s hs d hd
    have hdnd : opt.date_range.Nodup := by
      rw [(init_optimizer_ok hinit).2.1]
      exact nodup_generate_date_range _
    rw [← List.countP_eq_length_filter]
    unfold assignments_to_create
    rw [countP_flatMap]
    have hchunk : ∀ s1 : StaffProfile,
        (opt.date_range.map
          (fun d1 => assignment_record store sol s1 d1)).countP
            (fun a => a.staff_id = s.id ∧ a.date = d) =
        if s1.id = s.id then 1 else 0 := by
      intro s1
      rw [List.countP_map]
      by_cases h : s1.id = s.id
      · rw [if_pos h]
        have heq : ∀ d1 ∈ opt.date_range,
            (((fun a => decide (a.staff_id = s.id ∧ a.date = d)) ∘
              (fun d1 => assignment_record store sol s1 d1)) d1 = true ↔
            (fun d1 => decide (d1 = d)) d1 = true) := by
          intro d1 _
          simp [assignment_record_staff_id, assignment_record_date, h]
        rw [List.countP_congr heq]
        exact countP_eq_one_key hdnd hd
      · rw [if_neg h]
        apply List.countP_eq_zero.mpr
        intro d1 _
        simp [assignment_record_staff_id, assignment_record_date, h]
    simp only [hchunk]
    rw [sum_map_ite_one]
    have h2 : opt.staff_list.countP (fun s1 => decide (s1.id = s.id)) =
        (opt.staff_list.map (fun s1 => s1.id)).countP
          (fun x => decide (x = s.id)) := by
      rw [List.countP_map]
      rfl
    rw [h2]
    exact countP_eq_one_key hids (List.mem_map_of_mem _ hs)

/-- Witness for claim C3 at `c1_store`: 2 active workers x 3 days. -/
theorem assignments_count_after_run_witness :
    (c1_saved.2.assignments.filter
      (fun a => in_period_range c1_opt.period a.date)).length =
      c1_opt.staff_list.length *
        (c1_opt.period.end_date - c1_opt.period.start_date + 1).toNat ∧
    ∀ s ∈ c1_opt.staff_list, ∀ d ∈ c1_opt.date_range,
      ((c1_saved.2.assignments.filter
        (fun a => in_period_range c1_opt.period a.date)).filter
          (fun a => a.staff_id = s.id ∧ a.date = d)).length = 1 :=
  @assignments_count_after_run c1_store 1 c1_opt (by rfl)
    (.status .optimal) c1_sol c1_saved.1 c1_saved.2 (by rfl)
    (by decide) (by decide)
theorem objective_value_nil (sol : Solution) :
    objective_value [] sol = 0 := rfl

theorem objective_value_cons (t : Int × VarKey) (ts : List (Int × VarKey))
    (sol : Solution) :
    objective_value (t :: ts) sol =
      (if sol t.2.staff_id t.2.date then t.1 else 0) +
        objective_value ts sol := by
  simp [objective_value]

theorem objective_value_append (ts1 ts2 : List (Int × VarKey))
    (sol : Solution) :
    objective_value (ts1 ++ ts2) sol =
      objective_value ts1 sol + objective_value ts2 sol := by
  simp [objective_value]

theorem foldl_choice_mem {α : Type} (p : α → Prop) [DecidablePred p] :
    ∀ (l : List α) (acc : Option α) (r : α),
      l.foldl (fun acc x => if p x then some x else acc) acc = some r →
      r ∈ l ∨ acc = some r := by
  intro l
  induction l with
  | nil =>
    intro acc r h
    exact Or.inr h
  | cons a l ih =>
    intro acc r h
    rcases ih _ r h with hm | hacc
    · exact Or.inl (List.mem_cons_of_mem _ hm)
    · have hacc1 : (if p a then some a else acc) = some r := hacc
      by_cases hp : p a
      · rw [if_pos hp] at hacc1
        cases hacc1
        exact Or.inl (List.mem_cons_self _ _)
      · rw [if_neg hp] at hacc1
        exact Or.inr hacc1

theorem find_request_mem {reqs : List ShiftRequest} {sid : Nat} {d : Int}
    {r : ShiftRequest} (h : find_request reqs sid d = some r) : r ∈ reqs := by
  unfold find_request at h
  rcases foldl_choice_mem (fun r => r.staff_id = sid ∧ r.date = d)
    reqs none r h with hm | hacc
  · exact hm
  · exact absurd hacc (by simp)

theorem objective_value_day (s : StaffProfile) (reqs : List ShiftRequest)
    (hpri : ∀ r ∈ reqs,
      r.priority = 1 ∨ r.priority = 2 ∨ r.priority = 3)
    (sol : Solution) :
    ∀ dr : List Int,
      objective_value (dr.filterMap (fun d =>
        let priority := ((find_request reqs s.id d).map
          (fun r => r.priority)).getD 2
        if priority = 3 then some (10, ⟨s.id, d⟩)
        else if priority = 2 then some (1, ⟨s.id, d⟩)
        else if priority = 1 then some (-100, ⟨s.id, d⟩)
        else none)) sol =
      (dr.map (fun d =>
        objective_weight_spec
          (((find_request reqs s.id d).map (fun r => r.priority)).getD 2) *
        (if sol s.id d then 1 else 0))).sum := by
  intro dr
  induction dr with
  | nil => rfl
  | cons d dr ih =>
    rw [List.filterMap_cons, List.map_cons, List.sum_cons, ← ih]
    have hp123 : (((find_request reqs s.id d).map
        (fun r => r.priority)).getD 2) = 1 ∨
        (((find_request reqs s.id d).map
          (fun r => r.priority)).getD 2) = 2 ∨
        (((find_request reqs s.id d).map
          (fun r => r.priority)).getD 2) = 3 := by
      cases hf : find_request reqs s.id d with
      | none => simp
      | some r =>
        simpa using hpri r (find_request_mem hf)
    rcases hp123 with hp | hp | hp <;>
      simp [objective_value_cons, objective_weight_spec, hp]

theorem objective_value_flatMap {α : Type} (f : α → List (Int × VarKey))
    (sol : Solution) :
    ∀ l : List α, objective_value (l.flatMap f) sol =
      (l.map (fun a => objective_value (f a) sol)).sum := by
  intro l
  induction l with
  | nil => rfl
  | cons a l ih => simp [objective_value_append, ih]

/-- Claim C4: the constructed objective function equals, on every 0/1
solution, the specification's weighted sum: −100 per worked off-requested
day, +1 per worked available day (default when nothing was submitted),
+10 per worked strongly-requested day. -/
theorem objective_matches_spec (opt : Optimizer)
    (hpri : ∀ r ∈ opt.requests,
      r.priority = 1 ∨ r.priority = 2 ∨ r.priority = 3)
    (sol : Solution) :
    objective_value (create_optimization_problem opt).objective sol =
      objective_spec opt.staff_list opt.date_range opt.requests sol := by
  show objective_value
    (set_objective_function opt.staff_list opt.date_range opt.requests) sol =
    objective_spec opt.staff_list opt.date_range opt.requests sol
  unfold set_objective_function objective_spec
  rw [objective_value_flatMap]
  congr 1
  apply List.map_congr_left
  intro s1 _
  exact objective_value_day s1 opt.requests hpri sol opt.date_range

/-- Witness for claim C4 at `c1_opt`. -/
theorem objective_matches_spec_witness :
    objective_value (create_optimization_problem c1_opt).objective c1_sol =
      objective_spec c1_opt.staff_list c1_opt.date_range c1_opt.requests
        c1_sol :=
  objective_matches_spec c1_opt (by decide) c1_sol
theorem sum_map_single_id {l : List StaffProfile}
    (hnd : (l.map (fun x => x.id)).Nodup)
    {s : StaffProfile} (hs : s ∈ l) (g : StaffProfile → Nat) :
    (l.map (fun s1 => if s1.id = s.id then g s1 else 0)).sum = g s := by
  induction l with
  | nil => cases hs
  | cons a l ih =>
    simp only [List.map_cons, List.nodup_cons] at hnd
    rcases List.mem_cons.mp hs with heq | hmem
    · subst heq
      simp only [List.map_cons, List.sum_cons, if_pos rfl]
      have hz : (l.map (fun s1 => if s1.id = s.id then g s1 else 0)).sum
          = 0 := by
        apply List.sum_eq_zero
        intro x hx
        rw [List.mem_map] at hx
        obtain ⟨s1, hs1, rfl⟩ := hx
        rw [if_neg]
        intro he
        exact hnd.1 (he ▸ List.mem_map_of_mem _ hs1)
      rw [hz]
      simp
    · have hne : a.id ≠ s.id := by
        intro he
        exact hnd.1 (by rw [he]; exact List.mem_map_of_mem _ hmem)
      simp only [List.map_cons, List.sum_cons, if_neg hne,
        ih hnd.2 hmem, Nat.zero_add]

theorem countP_consec_daily_min (sid0 i0 : Nat)
    (staff_list : List StaffProfile) (date_range : List Int)
    (reqts : List DailyRequirement) :
    (add_daily_minimum_constraints staff_list date_range reqts).countP
      (is_consecutive_for sid0 i0) = 0 := by
  apply List.countP_eq_zero.mpr
  intro c hc
  unfold add_daily_minimum_constraints at hc
  rw [List.mem_flatMap] at hc
  obtain ⟨d, _, hc⟩ := hc
  rw [List.mem_filterMap] at hc
  obtain ⟨jt, _, hc⟩ := hc
  split at hc
  · simp only [] at hc
    split at hc
    · exact absurd hc (by simp)
    · rw [Option.some.injEq] at hc
      subst hc
      simp [is_consecutive_for]
  · exact absurd hc (by simp)

theorem countP_consec_monthly (sid0 i0 : Nat)
    (staff_list : List StaffProfile) (date_range : List Int) :
    (add_monthly_workday_constraints staff_list date_range).countP
      (is_consecutive_for sid0 i0) = 0 := by
  apply List.countP_eq_zero.mpr
  intro c hc
  unfold add_monthly_workday_constraints at hc
  rw [List.mem_flatMap] at hc
  obtain ⟨s1, _, hc⟩ := hc
  split at hc
  · rw [List.mem_append] at hc
    rcases hc with hc | hc
    · split at hc
      · rw [List.mem_singleton] at hc
        subst hc
        simp [is_consecutive_for]
      · exact absurd hc (by simp)
    · rw [List.mem_singleton] at hc
      subst hc
      simp [is_consecutive_for]
  · exact absurd hc (by simp)

theorem countP_consec_holiday (sid0 i0 : Nat)
    (staff_list : List StaffProfile) (date_range : List Int)
    (reqs : List ShiftRequest) :
    (add_holiday_request_constraints staff_list date_range reqs).countP
      (is_consecutive_for sid0 i0) = 0 := by
  apply List.countP_eq_zero.mpr
  intro c hc
  unfold add_holiday_request_constraints at hc
  rw [List.mem_flatMap] at hc
  obtain ⟨s1, _, hc⟩ := hc
  rw [List.mem_filterMap] at hc
  obtain ⟨d, _, hc⟩ := hc
  split at hc
  · rw [Option.some.injEq] at hc
    subst hc
    simp [is_consecutive_for]
  · exact absurd hc (by simp)

theorem countP_consec_section
    {staff_list : List StaffProfile} (date_range : List Int)
    (hnd : (staff_list.map (fun x => x.id)).Nodup)
    {s : StaffProfile} (hs : s ∈ staff_list) {ws : WorkStyle}
    (hws : s.work_style = some ws) (i : Nat) :
    (add_consecutive_workday_constraints staff_list date_range).countP
      (is_consecutive_for s.id i) =
    if 0 < ws.allow_consecutive_days ∧
        i < date_range.length - ws.allow_consecutive_days then 1
    else 0 := by
  unfold add_consecutive_workday_constraints
  rw [countP_flatMap]
  trans (staff_list.map (fun s1 =>
    if s1.id = s.id then
      (match s1.work_style with
        | some ws1 =>
            if 0 < ws1.allow_consecutive_days ∧
                i < date_range.length - ws1.allow_consecutive_days then 1
            else 0
        | none => 0)
    else 0)).sum
  · apply congrArg List.sum
    apply List.map_congr_left
    intro s1 _
    cases hws1 : s1.work_style with
    | none => simp [hws1]
    | some ws1 =>
      simp only [hws1]
      by_cases hC1 : ws1.allow_consecutive_days > 0
      · rw [if_pos hC1, List.countP_map]
        by_cases hid : s1.id = s.id
        · trans ((List.range
            (date_range.length - ws1.allow_consecutive_days)).countP
              (fun i1 => decide (i1 = i)))
          · apply List.countP_congr
            intro i1 _
            simp [is_consecutive_for, hid]
          · by_cases hin : i <
                date_range.length - ws1.allow_consecutive_days
            · rw [countP_eq_one_key (List.nodup_range _)
                (List.mem_range.mpr hin)]
              simp [hid, hC1, hin]
            · rw [List.countP_eq_zero.mpr]
              · simp [hid, hC1, hin]
              · intro i1 h1
                rw [List.mem_range] at h1
                simp
                omega
        · rw [List.countP_eq_zero.mpr]
          · simp [hid]
          · intro i1 _
            simp [is_consecutive_for, hid]
      · rw [if_neg hC1]
        have hno : ¬ (0 < ws1.allow_consecutive_days ∧
            i < date_range.length - ws1.allow_consecutive_days) :=
          fun h => hC1 h.1
        simp [hno]
  · rw [sum_map_single_id hnd hs]
    simp only [hws]

/-- Claim C5: for a worker whose policy sets a positive
max-consecutive-days limit C and any window of C+1 days starting inside
the day sequence, the model holds exactly one constraint for that
(worker, window-start) pair, that constraint is the window sum bound, and
any solution satisfying the model keeps the window's workday count ≤ C. -/
theorem consecutive_window_constraint_unique (opt : Optimizer)
    (hids : (opt.staff_list.map (fun x => x.id)).Nodup)
    {s : StaffProfile} (hs : s ∈ opt.staff_list) {ws : WorkStyle}
    (hws : s.work_style = some ws)
    (hC : 0 < ws.allow_consecutive_days)
    {i : Nat} (hi : i + ws.allow_consecutive_days < opt.date_range.length) :
    (create_optimization_problem opt).constraints.countP
      (is_consecutive_for s.id i) = 1 ∧
    Constraint.consecutive s.id i
      ((List.range (ws.allow_consecutive_days + 1)).map
        (fun j => ⟨s.id, opt.date_range.getD (i + j) 0⟩))
      ws.allow_consecutive_days ∈
      (create_optimization_problem opt).constraints ∧
    ∀ sol : Solution,
      (∀ c ∈ (create_optimization_problem opt).constraints,
        c.satisfied_by sol = true) →
      count_working sol ((List.range (ws.allow_consecutive_days + 1)).map
        (fun j => ⟨s.id, opt.date_range.getD (i + j) 0⟩)) ≤
        ws.allow_consecutive_days := by
  have hmem : Constraint.consecutive s.id i
      ((List.range (ws.allow_consecutive_days + 1)).map
        (fun j => ⟨s.id, opt.date_range.getD (i + j) 0⟩))
      ws.allow_consecutive_days ∈
      (create_optimization_problem opt).constraints := by
    show _ ∈ add_constraints _ _ _ _
    unfold add_constraints
    apply List.mem_append_left
    apply List.mem_append_right
    unfold add_consecutive_workday_constraints
    rw [List.mem_flatMap]
    refine ⟨s, hs, ?_⟩
    simp only [hws]
    rw [if_pos hC, List.mem_map]
    exact ⟨i, List.mem_range.mpr (by omega), rfl⟩
  refine ⟨?_, hmem, ?_⟩
  · show (add_constraints _ _ _ _).countP _ = 1
    unfold add_constraints
    simp only [List.countP_append]
    rw [countP_consec_daily_min, countP_consec_monthly,
      countP_consec_holiday,
      countP_consec_section opt.date_range hids hs hws i]
    rw [if_pos ⟨hC, by omega⟩]
  · intro sol hsol
    have := hsol _ hmem
    simpa [Constraint.satisfied_by] using this

/-- Witness for claim C5 at `c5_opt` (C = 2, window start 0). -/
theorem consecutive_window_constraint_unique_witness :
    (create_optimization_problem c5_opt).constraints.countP
      (is_consecutive_for 1 0) = 1 ∧
    Constraint.consecutive 1 0
      ((List.range (2 + 1)).map
        (fun j => ⟨1, c5_opt.date_range.getD (0 + j) 0⟩)) 2 ∈
      (create_optimization_problem c5_opt).constraints ∧
    ∀ sol : Solution,
      (∀ c ∈ (create_optimization_problem c5_opt).constraints,
        c.satisfied_by sol = true) →
      count_working sol ((List.range (2 + 1)).map
        (fun j => ⟨1, c5_opt.date_range.getD (0 + j) 0⟩)) ≤ 2 :=
  @consecutive_window_constraint_unique c5_opt (by decide)
    c5_staff (by decide)
    { max_shifts_per_month := 22, min_shifts_per_month := 0
      allow_consecutive_days := 2 } (by decide) (by decide) 0 (by decide)

/-- Counterexample to claim C2 as stated: `c2_store` records a day-0
requirement (job type 5, minimum 2), yet no active worker has job type 5,
so the constructed model contains no constraint at all; a successful run
persists 0 workday assignments of job type 5 on day 0, below the
minimum. -/
theorem daily_minimum_not_generated :
    find_requirement c2_opt.requirements 0 5 =
      some { period_id := 1, date := 0, job_type := 5
             min_staff_count := 2, required_staff_count := 2 } ∧
    (create_optimization_problem c2_opt).constraints = [] ∧
    init_optimizer c2_store 1 = .ok c2_opt ∧
    (generate_schedule c2_store 1 none
      (.status .optimal) (fun _ _ => false)).1.success = true ∧
    job_type_workday_count
      (generate_schedule c2_store 1 none
        (.status .optimal) (fun _ _ => false)).2.assignments
      c2_opt.staff_list 5 0 = 0 :=
  ⟨rfl, rfl, rfl, rfl, rfl⟩

/-- Claim C2 (amended): for a (day in the period, job type) pair with a
recorded requirement of minimum M, provided at least one active worker
has that job type, the model contains the constraint summing that job
type's variables on that day to at least M, and any materialized solution
satisfying the model persists at least M workday assignments of that job
type on that day. -/
theorem daily_minimum_enforced
    {store : Store} {opt : Optimizer}
    {d : Int} (hd : d ∈ opt.date_range) {jt : Nat}
    {req : DailyRequirement}
    (hreq : find_requirement opt.requirements d jt = some req)
    {s0 : StaffProfile} (hs0 : s0 ∈ opt.staff_list)
    (hjt : s0.job_type = some jt) :
    Constraint.daily_min d jt
      ((opt.staff_list.filter (fun s1 => s1.job_type = some jt)).map
        (fun s1 => ⟨s1.id, d⟩)) req.min_staff_count ∈
      (create_optimization_problem opt).constraints ∧
    ∀ sol : Solution,
      (∀ c ∈ (create_optimization_problem opt).constraints,
        c.satisfied_by sol = true) →
      ∀ oc : SolveOutcome, ∀ cnt : Nat, ∀ store1 : Store,
        save_results store opt oc sol = .ok (cnt, store1) →
        req.min_staff_count ≤
          job_type_workday_count store1.assignments opt.staff_list jt d := by
  have hmem : Constraint.daily_min d jt
      ((opt.staff_list.filter (fun s1 => s1.job_type = some jt)).map
        (fun s1 => ⟨s1.id, d⟩)) req.min_staff_count ∈
      (create_optimization_problem opt).constraints := by
    show _ ∈ add_constraints _ _ _ _
    unfold add_constraints
    apply List.mem_append_left
    apply List.mem_append_left
    apply List.mem_append_left
    unfold add_daily_minimum_constraints
    rw [List.mem_flatMap]
    refine ⟨d, hd, ?_⟩
    rw [List.mem_filterMap]
    refine ⟨jt, ?_, ?_⟩
    · unfold get_all_job_type_ids
      rw [List.mem_dedup, List.mem_filterMap]
      exact ⟨s0, hs0, hjt⟩
    · rw [hreq]
      simp only []
      rw [if_neg]
      intro hempty
      rw [List.isEmpty_iff, List.map_eq_nil_iff, List.filter_eq_nil_iff]
        at hempty
      exact hempty s0 hs0 (by simp [hjt])
  refine ⟨hmem, ?_⟩
  intro sol hsol oc cnt store1 hsave
  have hb := hsol _ hmem
  simp only [Constraint.satisfied_by, decide_eq_true_eq] at hb
  have hcw : count_working sol
      ((opt.staff_list.filter (fun s1 => s1.job_type = some jt)).map
        (fun s1 => ⟨s1.id, d⟩)) =
      opt.staff_list.countP
        (fun s1 => s1.job_type = some jt && sol s1.id d) := by
    unfold count_working
    rw [← List.countP_eq_length_filter, List.countP_map,
      List.countP_filter]
    apply List.countP_congr
    intro s1 _
    simp [Function.comp]
    tauto
  rw [hcw] at hb
  unfold job_type_workday_count
  rw [(save_results_ok hsave).1, ← List.countP_eq_length_filter,
    List.countP_append]
  have hpt : ∀ s1 ∈ opt.staff_list,
      (if (s1.job_type = some jt ∧ sol s1.id d = true) then 1 else 0) ≤
      (opt.date_range.map
        (fun d1 => assignment_record store sol s1 d1)).countP
          (fun a => a.is_workday && a.date = d &&
            opt.staff_list.any
              (fun s2 => s2.id = a.staff_id &&
                s2.job_type = some jt)) := by
    intro s1 hs1
    by_cases hcond : s1.job_type = some jt ∧ sol s1.id d = true
    · rw [if_pos hcond]
      have hpos : 0 < (opt.date_range.map
          (fun d1 => assignment_record store sol s1 d1)).countP
            (fun a => a.is_workday && a.date = d &&
              opt.staff_list.any
                (fun s2 => s2.id = a.staff_id &&
                  s2.job_type = some jt)) := by
        rw [List.countP_pos_iff]
        refine ⟨assignment_record store sol s1 d,
          List.mem_map_of_mem _ hd, ?_⟩
        have hany : opt.staff_list.any
            (fun s2 => s2.id = s1.id && s2.job_type = some jt) = true := by
          rw [List.any_eq_true]
          exact ⟨s1, hs1, by simp [hcond.1]⟩
        rw [assignment_record_is_workday, assignment_record_date,
          assignment_record_staff_id]
        simp [hcond.2, hany]
      omega
    · rw [if_neg hcond]
      exact Nat.zero_le _
  have hcreated : opt.staff_list.countP
      (fun s1 => s1.job_type = some jt && sol s1.id d) ≤
      (assignments_to_create store opt sol).countP
        (fun a => a.is_workday && a.date = d &&
          opt.staff_list.any
            (fun s1 => s1.id = a.staff_id && s1.job_type = some jt)) := by
    have step1 : opt.staff_list.countP
        (fun s1 => s1.job_type = some jt && sol s1.id d) =
        (opt.staff_list.map (fun s1 =>
          if (s1.job_type = some jt ∧ sol s1.id d = true) then 1
          else 0)).sum := by
      rw [sum_map_ite_one]
      apply List.countP_congr
      intro s1 _
      simp
    rw [step1]
    unfold assignments_to_create
    rw [countP_flatMap]
    exact List.sum_le_sum hpt
  omega

/-- Witness for amended claim C2 at `c2b_store`: the constraint exists
and the run persists at least 1 workday of job type 5 on day 0. -/
theorem daily_minimum_enforced_witness :
    Constraint.daily_min 0 5
      ((c2b_opt.staff_list.filter (fun s1 => s1.job_type = some 5)).map
        (fun s1 => ⟨s1.id, 0⟩))
      (DailyRequirement.mk 1 0 5 1 1).min_staff_count ∈
      (create_optimization_problem c2b_opt).constraints ∧
    (DailyRequirement.mk 1 0 5 1 1).min_staff_count ≤
      job_type_workday_count c2b_saved.2.assignments
        c2b_opt.staff_list 5 0 :=
  have h := @daily_minimum_enforced c2b_store c2b_opt 0 (by decide) 5
    (DailyRequirement.mk 1 0 5 1 1) (by rfl)
    (StaffProfile.mk 1 (some 5) none true) (by decide) (by rfl)
  ⟨h.1, h.2 (fun _ _ => true) (by decide) (.status .optimal)
    c2b_saved.1 c2b_saved.2 (by rfl)⟩
theorem foldl_count {α : Type} (p : α → Bool) :
    ∀ (l : List α) (n : Nat),
      l.foldl (fun acc r => if p r then acc + 1 else acc) n =
        n + l.countP p := by
  intro l
  induction l with
  | nil => simp
  | cons a l ih =>
    intro n
    by_cases h : p a
    · simp [h, ih, List.countP_cons]
      omega
    · simp [h, ih, List.countP_cons]

theorem round_tenths_int (n : ℤ) : round_tenths (n : ℚ) = n := by
  unfold round_tenths round_half_even
  have h10 : ((n : ℚ) * 10) = ((n * 10 : ℤ) : ℚ) := by push_cast; ring
  rw [h10]
  simp only [Rat.num_intCast, Rat.den_intCast, Nat.cast_one,
    Int.fdiv_one]
  have hfrac : ((n * 10 : ℤ) : ℚ) - ((n * 10 : ℤ) : ℚ) = 0 := by ring
  rw [hfrac]
  norm_num

/-- Claim C6: the statistics computation counts exactly the preferences
matched per the fulfillment rule (priority 1 with a non-workday record,
priority 2 or 3 with a workday record), the rate is fulfilled over total
times 100 rounded to one decimal, and the 7-of-10 scenario yields
70.0. -/
theorem statistics_fulfillment_correct :
    (∀ (store : Store) (pid : Nat) (p : SchedulePeriod),
      store.periods.find? (fun q => q.id = pid) = some p →
      ∃ st, get_optimization_statistics store pid = some st ∧
        st.total_requests =
          (store.requests.filter (fun r => r.period_id = p.id)).length ∧
        st.fulfilled_requests =
          (store.requests.filter (fun r => r.period_id = p.id)).countP
            (fulfilled_spec (store.assignments.filter
              (fun a => in_period_range p a.date))) ∧
        st.fulfillment_rate =
          (if 0 < st.total_requests then
            round_tenths ((st.fulfilled_requests : ℚ) /
              (st.total_requests : ℚ) * 100)
          else 0)) ∧
    (get_optimization_statistics c6_store 1).map
      (fun st => (st.total_requests, st.fulfilled_requests,
        st.fulfillment_rate)) = some (10, 7, (70 : ℚ)) := by
  have hgen : ∀ (store : Store) (pid : Nat) (p : SchedulePeriod),
      store.periods.find? (fun q => q.id = pid) = some p →
      ∃ st, get_optimization_statistics store pid = some st ∧
        st.total_requests =
          (store.requests.filter (fun r => r.period_id = p.id)).length ∧
        st.fulfilled_requests =
          (store.requests.filter (fun r => r.period_id = p.id)).countP
            (fulfilled_spec (store.assignments.filter
              (fun a => in_period_range p a.date))) ∧
        st.fulfillment_rate =
          (if 0 < st.total_requests then
            round_tenths ((st.fulfilled_requests : ℚ) /
              (st.total_requests : ℚ) * 100)
          else 0) := by
    intro store pid p hp
    unfold get_optimization_statistics
    rw [hp]
    refine ⟨_, rfl, rfl, ?_, ?_⟩
    · show (store.requests.filter
          (fun r => r.period_id = p.id)).foldl _ 0 = _
      have hbody : (fun (acc : Nat) (r : ShiftRequest) =>
          match (store.assignments.filter
              (fun a => in_period_range p a.date)).find?
              (fun a => a.staff_id = r.staff_id ∧ a.date = r.date) with
          | some a =>
              if r.priority = 1 ∧ a.is_workday = false then acc + 1
              else if (r.priority = 2 ∨ r.priority = 3) ∧
                  a.is_workday = true then acc + 1
              else acc
          | none => acc) =
          (fun acc r =>
            if fulfilled_spec (store.assignments.filter
              (fun a => in_period_range p a.date)) r then acc + 1
            else acc) := by
        funext acc r
        unfold fulfilled_spec
        cases hf : (store.assignments.filter
            (fun a => in_period_range p a.date)).find?
            (fun a => a.staff_id = r.staff_id ∧ a.date = r.date) with
        | none => rfl
        | some a =>
          by_cases h1 : r.priority = 1 ∧ a.is_workday = false
          · simp [h1]
          · by_cases h2 : (r.priority = 2 ∨ r.priority = 3) ∧
                a.is_workday = true
            · simp [h1, h2]
            · simp [h1, h2]
      rw [hbody, foldl_count]
      simp
    · by_cases ht : 0 < (store.requests.filter
          (fun r => r.period_id = p.id)).length
      · rw [if_pos ht, if_pos ht]
      · rw [if_neg ht, if_neg ht]
        exact round_tenths_zero
  refine ⟨hgen, ?_⟩
  obtain ⟨st, hst, htot, hful, hrate⟩ := hgen c6_store 1 ⟨1, 0, 9⟩ (by rfl)
  rw [hst]
  rw [Option.map_some']
  have htot10 : st.total_requests = 10 := by rw [htot]; rfl
  have hful7 : st.fulfilled_requests = 7 := by rw [hful]; rfl
  rw [htot10, hful7] at hrate
  have h70 : st.fulfillment_rate = 70 := by
    rw [hrate, if_pos (by norm_num)]
    have hc : ((7 : ℕ) : ℚ) / ((10 : ℕ) : ℚ) * 100 = ((70 : ℤ) : ℚ) := by
      push_cast
      norm_num
    rw [hc, round_tenths_int]
    norm_num
  rw [htot10, hful7, h70]

/-- Witness for claim C6 at `c6_store` and its period. -/
theorem statistics_fulfillment_correct_witness :
    ∃ st, get_optimization_statistics c6_store 1 = some st ∧
      st.total_requests = (c6_store.requests.filter
        (fun r => r.period_id = (SchedulePeriod.mk 1 0 9).id)).length ∧
      st.fulfilled_requests = (c6_store.requests.filter
        (fun r => r.period_id = (SchedulePeriod.mk 1 0 9).id)).countP
          (fulfilled_spec (c6_store.assignments.filter
            (fun a => in_period_range (SchedulePeriod.mk 1 0 9) a.date))) ∧
      st.fulfillment_rate =
        (if 0 < st.total_requests then
          round_tenths ((st.fulfilled_requests : ℚ) /
            (st.total_requests : ℚ) * 100)
        else 0) :=
  statistics_fulfillment_correct.1 c6_store 1 ⟨1, 0, 9⟩ (by rfl)
